import Mathlib

/-!
Verification of the Spatial-Temporal Alert Aggregation & Retention Engine of
`smart-alert-server` (`src/functions/main.py`) against its natural-language
specification.

The Firebase Realtime Database trees that the engine touches are embedded as
typed association lists mirroring the exact layout the source writes:

  alertsByPhenomenonAndLocationLast24h/<phenomenon>/<placeId>/alertForms/<formId> = record
  alertsByPhenomenonAndLocationLast24h/<phenomenon>/<placeId>/bounds             = bounds
  alertsByPhenomenonAndLocationCountLast24h/<phenomenon>/<placeId>/counter       = integer

A node in the Realtime Database exists exactly when it has content (Firebase
prunes empty objects), so the place node under the counts tree is represented
by the integer stored at its single child `counter`, and a place node of the
alerts tree is represented by a `PlaceNode` holding the `alertForms` mapping
and the optional `bounds` child.  Floating-point coordinates are modelled as
rationals; no claim depends on float rounding.  Each Python endpoint becomes a
pure function from a `Store` (plus its request data) to a new `Store` and an
observable result.
-/

/-- Association list with string keys: the embedding of one level of a
Realtime Database object.  `aget` is `dict`/`get()` lookup. -/
def aget {α : Type} : List (String × α) → String → Option α
  | [], _ => none
  | p :: rest, k => if p.1 = k then some p.2 else aget rest k

/-- Write at a key: replace the existing binding or append a fresh one
(the embedding of `db.reference(path).set(value)` at a leaf key). -/
def aset {α : Type} : List (String × α) → String → α → List (String × α)
  | [], k, v => [(k, v)]
  | p :: rest, k, v => if p.1 = k then (k, v) :: rest else p :: aset rest k v

/-- Delete a key (the embedding of `db.reference(path).delete()` at a leaf
key); removes every binding of the key. -/
def aerase {α : Type} (l : List (String × α)) (k : String) : List (String × α) :=
  l.filter (fun p => decide (p.1 ≠ k))

/-- Two-level lookup `tree/<k1>/<k2>`. -/
def tget {α : Type} (t : List (String × List (String × α))) (k1 k2 : String) : Option α :=
  match aget t k1 with
  | none => none
  | some l => aget l k2

/-- Two-level write `tree/<k1>/<k2> = v`, creating the intermediate node when
absent, as a Realtime Database `set` does. -/
def tset {α : Type} (t : List (String × List (String × α))) (k1 k2 : String) (v : α) :
    List (String × List (String × α)) :=
  match aget t k1 with
  | none => aset t k1 [(k2, v)]
  | some l => aset t k1 (aset l k2 v)

/-- Two-level delete `tree/<k1>/<k2>`; when the inner node becomes empty the
intermediate node is pruned, as Firebase removes empty objects. -/
def terase {α : Type} (t : List (String × List (String × α))) (k1 k2 : String) :
    List (String × List (String × α)) :=
  match aget t k1 with
  | none => t
  | some l =>
      let l2 := aerase l k2
      if l2.isEmpty then aerase t k1 else aset t k1 l2

/-- Geographic point of an alert form (`location.latitude` / `location.longitude`).
Coordinates are rationals standing in for the source's floats. -/
structure GeoPoint where
  latitude : Rat
  longitude : Rat
deriving DecidableEq

/-- One corner of a geocoder bounding box (`lat` / `lng`). -/
structure Corner where
  lat : Rat
  lng : Rat
deriving DecidableEq

/-- Bounding box returned by the geocoder and stored at the bucket's `bounds`
child. -/
structure Bounds where
  northeast : Corner
  southwest : Corner
deriving DecidableEq

/-- Incoming alert form (`event.data.after` of `categorize_and_store_alert`).
A field is `none` when the corresponding key is absent from the event dict. -/
structure AlertForm where
  location : Option GeoPoint
  criticalWeatherPhenomenon : Option String
  timestamp : Option Int
  imageURL : Option String
  criticalLevel : Option Int
  message : Option String
deriving DecidableEq

/-- The record stored per member at `.../alertForms/<formId>` (the
`essential_data_by_phenomenon_and_location` dict of main.py lines 119-126). -/
structure EssentialData where
  location : Option GeoPoint
  timestamp : Option Int
  time : String
  imageURL : Option String
  criticalLevel : Option Int
  message : Option String
deriving DecidableEq

/-- Place node of the alerts tree: children `alertForms` (mapping formId to
record) and `bounds`.  These are the only children the source ever writes
(main.py lines 135-146), so every place node has this shape. -/
structure PlaceNode where
  alertForms : List (String × EssentialData)
  bounds : Option Bounds
deriving DecidableEq

/-- The alerts tree `alertsByPhenomenonAndLocationLast24h`. -/
abbrev AlertsTree := List (String × List (String × PlaceNode))

/-- The counts tree `alertsByPhenomenonAndLocationCountLast24h`: the value at
`(phenomenon, placeId)` is the integer stored at the node's `counter` child,
which is its only child (main.py lines 150, 202). -/
abbrev CountsTree := List (String × List (String × Int))

/-- The slice of the Realtime Database the engine touches: the two aggregation
trees and the two sweep metrics written by `hourly_cleanup_http`. -/
structure Store where
  alerts : AlertsTree
  counts : CountsTree
  lastCleanupTimestamp : Option Int
  lastNumOfDeletedAlerts : Option Int
deriving DecidableEq

/-- Outcome tag of one run of `categorize_and_store_alert`.  The Python
coroutine always returns `None`; the tag records which exit was taken:
`invalid` is the early return of the validation check (line 102),
`errorCaught` is the `except` clause (line 159), `stored` is the full path. -/
inductive IngestResult
  | invalid
  | errorCaught
  | stored
deriving DecidableEq

/-- Python exception value that escapes or is caught. -/
inductive PyErr
  | keyError (key : String)
  | typeError
deriving DecidableEq

/-- Observable outcome of the HTTP cleanup endpoint: a normal response, a
`flask.abort`, or an uncaught Python exception. -/
inductive HttpOutcome
  | response (body : String) (status : Nat)
  | aborted (status : Nat)
  | crashed (e : PyErr)
deriving DecidableEq

/-- Result dict of the callable deletion endpoints:
`{'success': bool}` or `{'success': bool, 'message': str}`. -/
structure CallResult where
  success : Bool
  message : Option String
deriving DecidableEq

/-- Failure result with a message, as built at main.py lines 245-247, 287-291. -/
def failRes (m : String) : CallResult := { success := false, message := some m }

/-- Success result `{'success': True}` (lines 243, 285). -/
def okRes : CallResult := { success := true, message := none }

/-- Bucket-id derivation `get_short_place_id` (main.py lines 91-94).  The
source builds the key string `f"{place}_{ne.lat}_{ne.lng}_{sw.lat}_{sw.lng}"`
and returns the first 16 hex characters of its SHA-256 digest.  The digest is
modelled by the key string itself: it is the same deterministic function of
`(place, bounds)`, and no claim depends on digest length or collisions. -/
def get_short_place_id (place : String) (bounds : Bounds) : String :=
  place ++ "_" ++ toString bounds.northeast.lat ++ "_" ++ toString bounds.northeast.lng
        ++ "_" ++ toString bounds.southwest.lat ++ "_" ++ toString bounds.southwest.lng

/-- Zero-padded two-digit rendering used by `strftime("%H:%M")`. -/
def pad2 (n : Int) : String :=
  if n < 10 then "0" ++ toString n else toString n

/-- The `"HH:MM"` Athens time string computed at main.py lines 113-116
(epoch milliseconds divided to seconds, shifted by two hours, formatted).
Modelled with integer seconds; claims never inspect this string. -/
def athensHHMM (tsMillis : Int) : String :=
  let secs := tsMillis / 1000 + 7200
  pad2 ((secs / 3600) % 24) ++ ":" ++ pad2 ((secs / 60) % 60)

/-- Write one member record at `alerts/<ph>/<pid>/alertForms/<fid>`
(main.py lines 135-137 and 141-143; both branches execute the same `set`). -/
def storeMember (alerts : AlertsTree) (ph pid fid : String) (data : EssentialData) : AlertsTree :=
  let node := (tget alerts ph pid).getD { alertForms := [], bounds := none }
  tset alerts ph pid { node with alertForms := aset node.alertForms fid data }

/-- Write the bounds at `alerts/<ph>/<pid>/bounds` (main.py line 146). -/
def storeBounds (alerts : AlertsTree) (ph pid : String) (b : Bounds) : AlertsTree :=
  let node := (tget alerts ph pid).getD { alertForms := [], bounds := none }
  tset alerts ph pid { node with bounds := some b }

/-- The ingestion pipeline `categorize_and_store_alert` (main.py lines
97-160).  `geocode` stands for the external `get_location_name_and_bounds`
call; a `.error` value is the `ValueError` it raises, caught by the `except`
clause.  The validation at lines 101-102 checks only that the keys
`location` and `criticalWeatherPhenomenon` are present; an absent
`timestamp` raises `KeyError` at line 113, also caught by the `except`
clause before any database write.  On the stored path the member record is
written first, the bounds are written only when the place node did not yet
exist (`place_exists` truthiness of the `get()` at line 131), and the
counter at `counts/<ph>/<pid>/counter` is then read (`get() or 0`),
incremented locally, and written back (lines 150-157). -/
def categorize_and_store_alert (db : Store)
    (geocode : Rat → Rat → Except String (String × Bounds))
    (formID : String) (alert_form : AlertForm) : Store × IngestResult :=
  match alert_form.location, alert_form.criticalWeatherPhenomenon with
  | some loc, some phenomenon =>
      (match geocode loc.latitude loc.longitude with
       | .error _ => (db, .errorCaught)
       | .ok (place, bounds) =>
           let place_id := get_short_place_id place bounds
           match alert_form.timestamp with
           | none => (db, .errorCaught)
           | some ts =>
               let time := athensHHMM ts
               let essential : EssentialData :=
                 { location := alert_form.location
                   timestamp := alert_form.timestamp
                   time := time
                   imageURL := alert_form.imageURL
                   criticalLevel := alert_form.criticalLevel
                   message := alert_form.message }
               let place_exists := (tget db.alerts phenomenon place_id).isSome
               let alerts1 :=
                 if place_exists then
                   storeMember db.alerts phenomenon place_id formID essential
                 else
                   storeBounds (storeMember db.alerts phenomenon place_id formID essential)
                     phenomenon place_id bounds
               let db1 := { db with alerts := alerts1 }
               let counter := (tget db1.counts phenomenon place_id).getD (0 : Int)
               let counter := counter + 1
               ({ db1 with counts := tset db1.counts phenomenon place_id counter }, .stored))
  | _, _ => (db, .invalid)

/-- The exception raised by the first iteration of the cleanup loop's
innermost body on a given place node.  The loop at main.py lines 189-191 is
one level too shallow: `alerts.items()` iterates the place node's children,
which are `alertForms` (the whole member dict) and `bounds` (the bounding
box), never an individual alert record.  For the `alertForms` child,
`alert_data['timestamp']` (line 192) raises `KeyError` unless some member's
formId is literally the string `timestamp`, in which case that member record
(a non-empty dict, hence truthy) is divided by 1000 at line 194, raising
`TypeError`.  For the `bounds` child, `alert_data['timestamp']` always
raises `KeyError`.  A node with no items yields no exception and the loop
moves on. -/
def nodeFirstError (node : PlaceNode) : Option PyErr :=
  if node.alertForms.isEmpty then
    if node.bounds.isSome then some (.keyError "timestamp") else none
  else if (aget node.alertForms "timestamp").isSome then some .typeError
  else some (.keyError "timestamp")

/-- First exception raised while iterating the places of one phenomenon. -/
def placesFindError : List (String × PlaceNode) → Option PyErr
  | [] => none
  | (_, node) :: rest =>
      match nodeFirstError node with
      | some e => some e
      | none => placesFindError rest

/-- First exception raised by the cleanup loop over the whole alerts tree.
Because every reachable item raises before any `delete` call (see
`nodeFirstError`), the loop performs no database write when it raises, and
deletes nothing (and counts zero deletions) when it does not. -/
def sweepFindError : AlertsTree → Option PyErr
  | [] => none
  | (_, places) :: rest =>
      match placesFindError places with
      | some e => some e
      | none => sweepFindError rest

/-- The HTTP sweep endpoint `hourly_cleanup_http` (main.py lines 168-218).
`now` is `datetime.datetime.now().timestamp()` in seconds.  A non-POST
request is rejected by `abort(405)` before anything else (lines 174-176).
Otherwise the triple loop runs; on any non-empty place node it raises (see
`sweepFindError`) with no write performed, the exception escaping the
function.  When no item exists the loop completes having deleted nothing,
and the two metrics are written (lines 211-215). -/
def hourly_cleanup_http (db : Store) (method : String) (now : Int) : Store × HttpOutcome :=
  if method ≠ "POST" then (db, .aborted 405)
  else
    match sweepFindError db.alerts with
    | some e => (db, .crashed e)
    | none =>
        ({ db with lastCleanupTimestamp := some now, lastNumOfDeletedAlerts := some 0 },
         .response "Cleanup completed" 200)

/-- The per-member counter decrement of the sweep as written at main.py lines
202-208: read `counts/<ph>/<place>/counter` (`get() or 0`), clamp
`max(0, counter - 1)`, then delete the counts place node at zero and store
the new value otherwise.  `none` means the node is deleted.  In the deployed
function this block is unreachable: the loop raises at line 192 before
reaching line 194 on every item it can ever see (see `nodeFirstError`). -/
def sweep_decrement (prev : Option Int) : Option Int :=
  let counter := prev.getD 0
  let counter := max 0 (counter - 1)
  if counter = 0 then none else some counter

/-- The callable bucket purge `delete_alerts_by_location` (main.py lines
221-251): look up the phenomenon then the place in the snapshot of the
alerts tree, reporting which level is missing; when both exist, delete the
bucket and its counts node and report success. -/
def delete_alerts_by_location (db : Store) (phenomenon place : String) : Store × CallResult :=
  match aget db.alerts phenomenon with
  | none => (db, failRes "Phenomenon not found")
  | some places =>
      match aget places place with
      | none => (db, failRes "Place not found")
      | some _ =>
          ({ db with
              alerts := terase db.alerts phenomenon place
              counts := terase db.counts phenomenon place },
           okRes)

/-- Keys of a place node as returned in the snapshot: `alertForms` when at
least one member exists, and `bounds` when present (lexicographic order, as
Firebase orders children). -/
def nodeKeys (node : PlaceNode) : List String :=
  (if node.alertForms.isEmpty then [] else ["alertForms"])
    ++ (if node.bounds.isSome then ["bounds"] else [])

/-- Delete the child `cid` of place node `alerts/<ph>/<pid>` (the embedding
of the `delete()` at main.py line 274, whose path is
`.../{phenomenon}/{place}/{alert_id}` — one level above the members, so the
deletable children are `alertForms` and `bounds`).  The place node is pruned
when it becomes empty. -/
def placeChildDelete (alerts : AlertsTree) (ph pid cid : String) : AlertsTree :=
  match tget alerts ph pid with
  | none => alerts
  | some node =>
      let node1 :=
        if cid = "alertForms" then { node with alertForms := [] }
        else if cid = "bounds" then { node with bounds := none }
        else node
      if node1.alertForms.isEmpty && node1.bounds.isNone then terase alerts ph pid
      else tset alerts ph pid node1

/-- The callable single-alert purge `delete_alert_by_phenomenon_and_location`
(main.py lines 254-295).  The membership test at line 272 checks
`alert_id in phenomena[phenomenon][place]`, i.e. among the place node's
children `alertForms`/`bounds`, never among the member ids.  When it passes,
the `delete()` at line 274 removes that child, and the decrement block then
reads `counts/<ph>/<place>` (line 277 — the place node, not its `counter`
child): when that node exists, `get()` returns the dict `{'counter': v}`,
which is truthy, and `counter - 1` at line 279 raises `TypeError`, caught at
line 293, so nothing more is written; when it is absent, `get() or 0` gives
0, `max(0, -1)` is 0, and the (absent) counts node is deleted — a no-op —
before success is returned. -/
def delete_alert_by_phenomenon_and_location (db : Store) (phenomenon place alert_id : String) :
    Store × CallResult :=
  match aget db.alerts phenomenon with
  | none => (db, failRes "Phenomenon not found")
  | some places =>
      match aget places place with
      | none => (db, failRes "Place not found")
      | some node =>
          if alert_id ∈ nodeKeys node then
            let db1 := { db with alerts := placeChildDelete db.alerts phenomenon place alert_id }
            match tget db1.counts phenomenon place with
            | some _ => (db1, failRes "An unexpected error occurred")
            | none => ({ db1 with counts := terase db1.counts phenomenon place }, okRes)
          else (db, failRes "Alert not found")

/-- Thread-local view of one in-flight ingestion restricted to the
already-existing-bucket path of `categorize_and_store_alert`: program
counter 0 is before the member `set` (line 135), 1 is before the counter
read (line 151), 2 is before the counter write (line 157), 3 is done.
`counter` is the Python local of the same name. -/
structure IngestThread where
  formID : String
  data : EssentialData
  pc : Nat
  counter : Int
deriving DecidableEq

/-- One atomic database access of an in-flight ingestion on bucket
`(ph, pid)`: the member write (line 135), the counter read combined with the
thread-local increment (lines 151-154), or the counter write (line 157).
Each step is one Realtime Database operation; between two steps of one call
another call may access the same paths. -/
def ingestStep (ph pid : String) (db : Store) (t : IngestThread) : Store × IngestThread :=
  match t.pc with
  | 0 => ({ db with alerts := storeMember db.alerts ph pid t.formID t.data }, { t with pc := 1 })
  | 1 => (db, { t with pc := 2, counter := (tget db.counts ph pid).getD 0 + 1 })
  | 2 => ({ db with counts := tset db.counts ph pid t.counter }, { t with pc := 3 })
  | _ => (db, t)

/-- Run two concurrent ingestions under an explicit interleaving: `true`
schedules a step of the first call, `false` of the second. -/
def runConc (ph pid : String) : List Bool → Store × IngestThread × IngestThread →
    Store × IngestThread × IngestThread
  | [], s => s
  | b :: rest, (db, t1, t2) =>
      if b then
        let (db1, t1a) := ingestStep ph pid db t1
        runConc ph pid rest (db1, t1a, t2)
      else
        let (db1, t2a) := ingestStep ph pid db t2
        runConc ph pid rest (db1, t1, t2a)

/-- Members of bucket `(ph, pid)` in the alerts tree. -/
def membersAt (db : Store) (ph pid : String) : List (String × EssentialData) :=
  match tget db.alerts ph pid with
  | none => []
  | some node => node.alertForms

/-- Empty database slice: the state before any ingestion. -/
def emptyStore : Store :=
  { alerts := [], counts := [], lastCleanupTimestamp := none, lastNumOfDeletedAlerts := none }

/-- Concrete bounding box used by the examples. -/
def bounds0 : Bounds :=
  { northeast := { lat := 38, lng := 24 }, southwest := { lat := 37, lng := 23 } }

/-- Concrete geocoder behaviour: every lookup resolves to Kolonaki with
`bounds0` (the external collaborator is a parameter of the pipeline). -/
def geocode0 : Rat → Rat → Except String (String × Bounds) :=
  fun _ _ => .ok ("Kolonaki", bounds0)

/-- Bucket id of the example bucket. -/
def pid0 : String := get_short_place_id "Kolonaki" bounds0

/-- A well-formed incoming alert form. -/
def form0 : AlertForm :=
  { location := some { latitude := 37, longitude := 23 }
    criticalWeatherPhenomenon := some "FLOOD"
    timestamp := some 1000000
    imageURL := none
    criticalLevel := some 3
    message := some "water rising" }

/-- Stored record that is 25 hours old at sweep time 1000000000 s. -/
def recOld : EssentialData :=
  { location := some { latitude := 37, longitude := 23 }
    timestamp := some 999910000000
    time := "03:00"
    imageURL := none
    criticalLevel := some 2
    message := none }

/-- Stored record that is 1 hour old at sweep time 1000000000 s. -/
def recNew : EssentialData :=
  { location := some { latitude := 37, longitude := 23 }
    timestamp := some 999996400000
    time := "03:00"
    imageURL := none
    criticalLevel := some 1
    message := none }

/-- C1: the claim states that after every sequence of ingestions, sweeps and
purges the stored counter of a bucket equals the number of live members of
its members tree.  The code violates it: delivering the same ingestion event
twice (same `formID`, as the at-least-once trigger may do) overwrites the one
member but increments the counter both times, leaving counter 2 over a
members tree of size 1. -/
theorem c1_counter_diverges_from_members :
    (tget ((categorize_and_store_alert
        ((categorize_and_store_alert emptyStore geocode0 "a1" form0).1)
        geocode0 "a1" form0).1).counts "FLOOD" pid0 = some 2) ∧
    (membersAt ((categorize_and_store_alert
        ((categorize_and_store_alert emptyStore geocode0 "a1" form0).1)
        geocode0 "a1" form0).1) "FLOOD" pid0).length = 1 :=
  ⟨rfl, rfl⟩

/-- C2: the claim states that `AddMember` is idempotent per record id.  The
code is not: re-ingesting the same record id leaves the members tree
unchanged (the `set` overwrites the same path) but still runs the counter
read-increment-write, taking the stored counter from 1 to 2. -/
theorem c2_add_member_not_idempotent :
    ((categorize_and_store_alert
        ((categorize_and_store_alert emptyStore geocode0 "f1" form0).1)
        geocode0 "f1" form0).2 = .stored) ∧
    (((categorize_and_store_alert
        ((categorize_and_store_alert emptyStore geocode0 "f1" form0).1)
        geocode0 "f1" form0).1).alerts
      = ((categorize_and_store_alert emptyStore geocode0 "f1" form0).1).alerts) ∧
    (tget ((categorize_and_store_alert emptyStore geocode0 "f1" form0).1).counts
        "FLOOD" pid0 = some 1) ∧
    (tget ((categorize_and_store_alert
        ((categorize_and_store_alert emptyStore geocode0 "f1" form0).1)
        geocode0 "f1" form0).1).counts "FLOOD" pid0 = some 2) :=
  ⟨rfl, rfl, rfl, rfl⟩

/-- Bucket with one 25-hour-old and one 1-hour-old member, counter 2: the
input of the sweep eviction scenario. -/
def dbC3 : Store :=
  { alerts := [("FLOOD", [("p1",
      { alertForms := [("rOld", recOld), ("rNew", recNew)], bounds := some bounds0 })])]
    counts := [("FLOOD", [("p1", 2)])]
    lastCleanupTimestamp := none
    lastNumOfDeletedAlerts := none }

/-- C3: the claim states the sweep removes exactly the members aged at least
86,400,000 ms, so on a bucket with a 25-hour-old and a 1-hour-old member it
removes the old one and decrements the counter.  The code instead raises
`KeyError 'timestamp'`: its loop iterates the bucket's children
(`alertForms`, `bounds`) as if they were member records, so the sweep
removes nothing, and the store — both members and the counter — is returned
unchanged. -/
theorem c3_sweep_keyerror_removes_nothing :
    hourly_cleanup_http dbC3 "POST" 1000000000
      = (dbC3, .crashed (.keyError "timestamp")) ∧
    (membersAt dbC3 "FLOOD" "p1").length = 2 ∧
    tget dbC3.counts "FLOOD" "p1" = some 2 :=
  ⟨rfl, rfl, rfl⟩

/-- Bucket whose single member is 25 hours old at sweep time. -/
def dbC4 : Store :=
  { alerts := [("FIRE", [("p2",
      { alertForms := [("rX", recOld)], bounds := some bounds0 })])]
    counts := [("FIRE", [("p2", 1)])]
    lastCleanupTimestamp := none
    lastNumOfDeletedAlerts := none }

/-- C4: the claim states that removing the last member of a bucket deletes
the whole bucket (bounds included) so it no longer appears in the bucket
listing.  The code never does this: sweeping a bucket whose only member is
past the retention window raises `KeyError` before any delete, leaving the
bucket present in the alerts tree with its member and counter intact (and
even the unreachable decrement path would delete only the counts node,
leaving the bounds in the alerts tree). -/
theorem c4_empty_bucket_survives_eviction :
    hourly_cleanup_http dbC4 "POST" 1000000000
      = (dbC4, .crashed (.keyError "timestamp")) ∧
    (tget dbC4.alerts "FIRE" "p2").isSome = true ∧
    tget dbC4.counts "FIRE" "p2" = some 1 :=
  ⟨rfl, rfl, rfl⟩

/-- Bucket holding the member `r1`, the target of the single-member purge. -/
def dbC5 : Store :=
  { alerts := [("FLOOD", [("p1",
      { alertForms := [("r1", recNew)], bounds := some bounds0 })])]
    counts := [("FLOOD", [("p1", 1)])]
    lastCleanupTimestamp := none
    lastNumOfDeletedAlerts := none }

/-- C5: the claim states that purging an existing member removes it and
reports success.  The code looks the record id up among the bucket node's
children (`alertForms`/`bounds`) instead of among the members, so the purge
of the existing member `r1` reports `Alert not found` and leaves the store
unchanged. -/
theorem c5_existing_member_reported_not_found :
    (aget (membersAt dbC5 "FLOOD" "p1") "r1").isSome = true ∧
    delete_alert_by_phenomenon_and_location dbC5 "FLOOD" "p1" "r1"
      = (dbC5, failRes "Alert not found") :=
  ⟨rfl, rfl⟩

/-- Bucket with one prior member and counter 1, on which two ingestions run
concurrently. -/
def dbC6 : Store :=
  { alerts := [("FLOOD", [("pc",
      { alertForms := [("r0", recNew)], bounds := some bounds0 })])]
    counts := [("FLOOD", [("pc", 1)])]
    lastCleanupTimestamp := none
    lastNumOfDeletedAlerts := none }

/-- First in-flight ingestion of the concurrency scenario. -/
def threadA : IngestThread := { formID := "r1", data := recNew, pc := 0, counter := 0 }

/-- Second in-flight ingestion of the concurrency scenario. -/
def threadB : IngestThread := { formID := "r2", data := recNew, pc := 0, counter := 0 }

/-- C6: the claim states that two concurrent `AddMember` calls with distinct
record ids both succeed and leave the counter at the prior value plus two,
the mutation being a single atomic store operation.  The code updates the
counter by separate read and write calls, so under the interleaving
member-A, member-B, read-A, read-B, write-A, write-B both calls complete
(three members are present) yet both reads see counter 1 and the final
counter is 2, not 1 + 2: one increment is lost. -/
theorem c6_concurrent_add_lost_update :
    ((runConc "FLOOD" "pc" [true, false, true, false, true, false]
        (dbC6, threadA, threadB)).2.1.pc = 3) ∧
    ((runConc "FLOOD" "pc" [true, false, true, false, true, false]
        (dbC6, threadA, threadB)).2.2.pc = 3) ∧
    ((membersAt (runConc "FLOOD" "pc" [true, false, true, false, true, false]
        (dbC6, threadA, threadB)).1 "FLOOD" "pc").length = 3) ∧
    (tget (runConc "FLOOD" "pc" [true, false, true, false, true, false]
        (dbC6, threadA, threadB)).1.counts "FLOOD" "pc" = some 2) ∧
    ((2 : Int) ≠ 1 + 2) :=
  ⟨rfl, rfl, rfl, rfl, by decide⟩

/-- Bucket with counter 5 whose `bounds` child is the purge target: the one
kind of input on which the single-member purge reaches its decrement block. -/
def dbC10 : Store :=
  { alerts := [("FLOOD", [("p1",
      { alertForms := [("r1", recNew)], bounds := some bounds0 })])]
    counts := [("FLOOD", [("p1", 5)])]
    lastCleanupTimestamp := none
    lastNumOfDeletedAlerts := none }

/-- C10, counterexample: the claim states the single-member purge writes back
`max(0, previous - 1)` to the counter.  On the one request shape that
reaches the decrement block (`alert_id = "bounds"`, which passes the
children-level membership test), the counter read targets the counts place
node rather than its `counter` child, the arithmetic on the fetched dict
raises `TypeError`, and the stored counter stays 5 instead of the claimed
`max(0, 5 - 1) = 4`. -/
theorem c10_purge_decrement_never_written :
    ((delete_alert_by_phenomenon_and_location dbC10 "FLOOD" "p1" "bounds").2
      = failRes "An unexpected error occurred") ∧
    (tget ((delete_alert_by_phenomenon_and_location dbC10 "FLOOD" "p1" "bounds").1).counts
      "FLOOD" "p1" = some 5) ∧
    ((5 : Int) ≠ max 0 (5 - 1)) :=
  ⟨rfl, rfl, by decide⟩

/-- Looking a key up after writing it yields the written value. -/
theorem aget_aset_self {α : Type} (l : List (String × α)) (k : String) (v : α) :
    aget (aset l k v) k = some v := by
  induction l with
  | nil => simp [aget, aset]
  | cons p rest ih =>
      by_cases h : p.1 = k
      · simp [aset, h, aget]
      · simp [aset, h, aget, ih]

/-- Looking a key up after deleting it yields nothing. -/
theorem aget_aerase_self {α : Type} (l : List (String × α)) (k : String) :
    aget (aerase l k) k = none := by
  induction l with
  | nil => rfl
  | cons p rest ih =>
      by_cases h : p.1 = k
      · simpa [aerase, List.filter_cons, h] using ih
      · simpa [aerase, List.filter_cons, h, aget] using ih

/-- Deleting an absent key is a no-op. -/
theorem aerase_eq_self {α : Type} (l : List (String × α)) (k : String)
    (h : aget l k = none) : aerase l k = l := by
  induction l with
  | nil => rfl
  | cons p rest ih =>
      obtain ⟨a, b⟩ := p
      by_cases hk : a = k
      · simp [aget, hk] at h
      · simp only [aget, if_neg hk] at h
        have h2 := ih h
        simp only [aerase, List.filter_cons] at h2 ⊢
        rw [if_pos (by simp [hk]), h2]

/-- Rewriting a key with the value it already holds is a no-op. -/
theorem aset_eq_self {α : Type} (l : List (String × α)) (k : String) (v : α)
    (h : aget l k = some v) : aset l k v = l := by
  induction l with
  | nil => simp [aget] at h
  | cons p rest ih =>
      obtain ⟨a, b⟩ := p
      by_cases hk : a = k
      · simp [aget, hk] at h
        simp [aset, hk, ← h]
      · simp [aget, hk] at h
        simp [aset, hk, ih h]

/-- A successful lookup exhibits a binding of the list. -/
theorem mem_of_aget {α : Type} {t : List (String × α)} {k : String} {v : α}
    (h : aget t k = some v) : (k, v) ∈ t := by
  induction t with
  | nil => cases h
  | cons p rest ih =>
      obtain ⟨a, b⟩ := p
      by_cases hk : a = k
      · simp [aget, hk] at h
        rw [← hk, ← h]
        exact List.mem_cons_self _ _
      · simp [aget, hk] at h
        exact List.mem_cons_of_mem _ (ih h)

/-- A two-level delete removes the key from the tree. -/
theorem tget_terase_self {α : Type} (t : List (String × List (String × α))) (k1 k2 : String) :
    tget (terase t k1 k2) k1 k2 = none := by
  unfold terase
  cases h : aget t k1 with
  | none => simp [tget, h]
  | some l =>
      by_cases he : (aerase l k2).isEmpty
      · simp only [he, if_true]
        simp [tget, aget_aerase_self]
      · simp only [he, if_false]
        simp [tget, aget_aset_self, aget_aerase_self]

/-- On a tree whose inner nodes are all non-empty (as every Realtime Database
snapshot is, since Firebase prunes empty objects), deleting an absent
two-level key is a no-op. -/
theorem terase_eq_self {α : Type} (t : List (String × List (String × α))) (k1 k2 : String)
    (hp : ∀ p ∈ t, p.2 ≠ ([] : List (String × α)))
    (h : tget t k1 k2 = none) : terase t k1 k2 = t := by
  cases ha : aget t k1 with
  | none =>
      unfold terase
      rw [ha]
  | some l =>
      have hl : aget l k2 = none := by
        unfold tget at h
        rw [ha] at h
        exact h
      have hearse : aerase l k2 = l := aerase_eq_self l k2 hl
      have hne : l ≠ [] := hp (k1, l) (mem_of_aget ha)
      have hemp : l.isEmpty = false := by
        cases l with
        | nil => exact absurd rfl hne
        | cons a rest => rfl
      unfold terase
      rw [ha]
      show (if (aerase l k2).isEmpty = true then aerase t k1 else aset t k1 (aerase l k2)) = t
      rw [hearse, hemp]
      simp only [Bool.false_eq_true, if_false]
      exact aset_eq_self t k1 l ha

/-- C7: `PurgeBucket` (`delete_alerts_by_location`) reports `NotFound`
structurally and is idempotent: when the phenomenon key is absent the call
returns `Phenomenon not found` with the store unchanged; when the phenomenon
exists but the place key is absent it returns `Place not found` with the
store unchanged; when the bucket exists the call reports success, the bucket
and its counter node are both deleted, and a second purge of the same pair
returns a failure result and leaves the store unchanged. -/
theorem c7_purge_bucket_correct (db : Store) (ph place : String) :
    (aget db.alerts ph = none →
      delete_alerts_by_location db ph place = (db, failRes "Phenomenon not found")) ∧
    (∀ places, aget db.alerts ph = some places → aget places place = none →
      delete_alerts_by_location db ph place = (db, failRes "Place not found")) ∧
    ((tget db.alerts ph place).isSome = true →
      ((delete_alerts_by_location db ph place).2 = okRes ∧
       tget ((delete_alerts_by_location db ph place).1).alerts ph place = none ∧
       tget ((delete_alerts_by_location db ph place).1).counts ph place = none ∧
       (delete_alerts_by_location ((delete_alerts_by_location db ph place).1) ph place).1
         = (delete_alerts_by_location db ph place).1 ∧
       (delete_alerts_by_location ((delete_alerts_by_location db ph place).1) ph place).2.success
         = false)) := by
  refine ⟨?_, ?_, ?_⟩
  · intro h
    simp only [delete_alerts_by_location, h]
  · intro places h1 h2
    simp only [delete_alerts_by_location, h1, h2]
  · intro hs
    unfold tget at hs
    cases h1 : aget db.alerts ph with
    | none => simp [h1] at hs
    | some places =>
        simp only [h1] at hs
        cases h2 : aget places place with
        | none => simp [h2] at hs
        | some node =>
            have hred : delete_alerts_by_location db ph place =
                ({ db with
                    alerts := terase db.alerts ph place
                    counts := terase db.counts ph place }, okRes) := by
              simp only [delete_alerts_by_location, h1, h2]
            rw [hred]
            refine ⟨rfl, tget_terase_self db.alerts ph place, tget_terase_self db.counts ph place, ?_⟩
            have hterase : terase db.alerts ph place =
                (if (aerase places place).isEmpty then aerase db.alerts ph
                 else aset db.alerts ph (aerase places place)) := by
              simp only [terase, h1]
            by_cases he : (aerase places place).isEmpty = true
            · have hnone : aget (terase db.alerts ph place) ph = none := by
                rw [hterase, if_pos he]
                exact aget_aerase_self db.alerts ph
              constructor
              · simp [delete_alerts_by_location, hnone]
              · simp [delete_alerts_by_location, hnone, failRes]
            · have hsome : aget (terase db.alerts ph place) ph = some (aerase places place) := by
                rw [hterase, if_neg he]
                exact aget_aset_self db.alerts ph (aerase places place)
              have hinner : aget (aerase places place) place = none :=
                aget_aerase_self places place
              constructor
              · simp [delete_alerts_by_location, hsome, hinner]
              · simp [delete_alerts_by_location, hsome, hinner, failRes]

/-- C7 witness: the three branches of `c7_purge_bucket_correct` at concrete
stores — purging a bucket of the empty store, purging a place absent under
an existing phenomenon, and purging the existing bucket `(FLOOD, p1)` of
`dbC3` with a repeated purge afterwards. -/
theorem c7_purge_bucket_correct_witness :
    (delete_alerts_by_location emptyStore "FLOOD" "p1"
      = (emptyStore, failRes "Phenomenon not found")) ∧
    (delete_alerts_by_location dbC3 "FLOOD" "nowhere"
      = (dbC3, failRes "Place not found")) ∧
    ((delete_alerts_by_location dbC3 "FLOOD" "p1").2 = okRes ∧
     tget ((delete_alerts_by_location dbC3 "FLOOD" "p1").1).alerts "FLOOD" "p1" = none ∧
     tget ((delete_alerts_by_location dbC3 "FLOOD" "p1").1).counts "FLOOD" "p1" = none ∧
     (delete_alerts_by_location ((delete_alerts_by_location dbC3 "FLOOD" "p1").1) "FLOOD" "p1").1
       = (delete_alerts_by_location dbC3 "FLOOD" "p1").1 ∧
     (delete_alerts_by_location ((delete_alerts_by_location dbC3 "FLOOD" "p1").1) "FLOOD" "p1").2.success
       = false) :=
  ⟨(c7_purge_bucket_correct emptyStore "FLOOD" "p1").1 rfl,
   (c7_purge_bucket_correct dbC3 "FLOOD" "nowhere").2.1 _ rfl rfl,
   (c7_purge_bucket_correct dbC3 "FLOOD" "p1").2.2 rfl⟩

/-- C8: an ingestion event lacking the `location` key or the
`criticalWeatherPhenomenon` key is dropped by the validation check before
any database access: the call returns at the validation exit and the store —
buckets, members and counters — is unchanged. -/
theorem c8_validation_no_store_write (db : Store)
    (geocode : Rat → Rat → Except String (String × Bounds))
    (formID : String) (form : AlertForm)
    (h : form.location = none ∨ form.criticalWeatherPhenomenon = none) :
    categorize_and_store_alert db geocode formID form = (db, .invalid) := by
  cases hl : form.location with
  | none =>
      unfold categorize_and_store_alert
      rw [hl]
  | some loc =>
      cases hp : form.criticalWeatherPhenomenon with
      | none =>
          unfold categorize_and_store_alert
          rw [hl, hp]
      | some ph =>
          cases h with
          | inl hc => rw [hl] at hc; cases hc
          | inr hc => rw [hp] at hc; cases hc

/-- C8 witness: a form whose `location` key is absent is dropped with the
store unchanged. -/
theorem c8_validation_no_store_write_witness :
    categorize_and_store_alert emptyStore geocode0 "w1"
      { location := none
        criticalWeatherPhenomenon := some "FLOOD"
        timestamp := some 5
        imageURL := none
        criticalLevel := none
        message := none } = (emptyStore, .invalid) :=
  c8_validation_no_store_write emptyStore geocode0 "w1" _ (Or.inl rfl)

/-- C9: a sweep-trigger request whose method is not POST is rejected with the
client-error status 405 before any database access: the store, including the
`lastCleanupTimestamp` and `lastNumOfDeletedAlerts` metrics, is returned
unchanged and no member or counter is touched. -/
theorem c9_non_post_no_side_effects (db : Store) (method : String) (now : Int)
    (h : method ≠ "POST") :
    hourly_cleanup_http db method now = (db, .aborted 405) := by
  unfold hourly_cleanup_http
  rw [if_pos h]

/-- C9 witness: a GET request to the sweep endpoint is rejected with 405 and
no state change. -/
theorem c9_non_post_no_side_effects_witness :
    hourly_cleanup_http dbC3 "GET" 1000000000 = (dbC3, .aborted 405) :=
  c9_non_post_no_side_effects dbC3 "GET" 1000000000 (by decide)

/-- C10 (amended): no negative counter is ever stored, but not by the claimed
mechanism at the purge site.  The sweep's decrement as written computes
`max(0, previous - 1)`, stores it only when positive and deletes the counts
node at zero — so any value it stores is positive — while the single-member
purge never writes a counter at all: its counter reference targets the
bucket's counts node rather than the `counter` child, the arithmetic on the
fetched dict raises `TypeError`, and on every request the counts tree is
returned exactly as it was (for snapshots, whose nodes are non-empty as
Firebase prunes empty objects).  The sweep endpoint likewise never modifies
the counts tree. -/
theorem c10_no_negative_counter_stored :
    (∀ prev v, sweep_decrement prev = some v → 0 < v ∧ v = max 0 (prev.getD 0 - 1)) ∧
    (∀ db method now, ((hourly_cleanup_http db method now).1).counts = db.counts) ∧
    (∀ db ph place aid, (∀ p ∈ db.counts, p.2 ≠ ([] : List (String × Int))) →
      ((delete_alert_by_phenomenon_and_location db ph place aid).1).counts = db.counts) := by
  refine ⟨?_, ?_, ?_⟩
  · intro prev v h
    unfold sweep_decrement at h
    by_cases hz : max 0 (prev.getD 0 - 1) = 0
    · rw [if_pos hz] at h
      cases h
    · rw [if_neg hz] at h
      have hv : max 0 (prev.getD 0 - 1) = v := Option.some.inj h
      constructor
      · rw [← hv]
        rcases lt_or_le 0 (prev.getD 0 - 1) with hlt | hle
        · rw [max_eq_right hlt.le]
          exact hlt
        · exact absurd (max_eq_left hle) hz
      · rw [hv]
  · intro db method now
    unfold hourly_cleanup_http
    by_cases hm : method ≠ "POST"
    · rw [if_pos hm]
    · rw [if_neg hm]
      cases sweepFindError db.alerts <;> rfl
  · intro db ph place aid hp
    cases h1 : aget db.alerts ph with
    | none => simp [delete_alert_by_phenomenon_and_location, h1]
    | some places =>
        cases h2 : aget places place with
        | none => simp [delete_alert_by_phenomenon_and_location, h1, h2]
        | some node =>
            by_cases hm : aid ∈ nodeKeys node
            · cases h3 : tget db.counts ph place with
              | some c =>
                  simp [delete_alert_by_phenomenon_and_location, h1, h2, hm, h3]
              | none =>
                  simp only [delete_alert_by_phenomenon_and_location, h1, h2, if_pos hm, h3]
                  exact terase_eq_self db.counts ph place hp h3
            · simp [delete_alert_by_phenomenon_and_location, h1, h2, hm]

/-- C10 witness: the decrement formula at a stored value of 5 yields the
positive 4, and a member-purge request against `dbC10` leaves the counts
tree untouched. -/
theorem c10_no_negative_counter_stored_witness :
    ((0 : Int) < 4 ∧ (4 : Int) = max 0 ((some (5 : Int)).getD 0 - 1)) ∧
    ((delete_alert_by_phenomenon_and_location dbC10 "FLOOD" "p1" "r1").1).counts
      = dbC10.counts :=
  ⟨c10_no_negative_counter_stored.1 (some 5) 4 rfl,
   c10_no_negative_counter_stored.2.2 dbC10 "FLOOD" "p1" "r1" (by decide)⟩
